import Mathlib

/-!
Verification development for the URL-downloader session-reconstruction service
(`urldownloader.py`).  The definitions below are a shallow embedding of the
parts of `URLDownloader.execute`, `detect_open_directory` and the two
`Content-Disposition` filename patterns that the stated properties concern.
External collaborators (the `identify` file-identification service and the
standard-library base64 decoder) are modelled as function parameters, as the
source treats them as black boxes.  Python strings are modelled as `String`,
bytes as `List Nat`, ints as `Int`, and Python dictionaries (insertion
ordered, set-in-place-or-append) as association lists with the `dictSet`
operation below.
-/

set_option maxRecDepth 4096

namespace UrlDownloader

/-! ## Python dictionary model -/

/-- Lookup in an association list modelling a Python dict. -/
def dictGet {α : Type} (d : List (String × α)) (k : String) : Option α :=
  match d with
  | [] => none
  | (k2, v) :: rest => if k2 = k then some v else dictGet rest k

/-- Setting a key in a Python dict: update in place when the key is present,
append a new binding otherwise (insertion order preserved). -/
def dictSet {α : Type} (d : List (String × α)) (k : String) (v : α) :
    List (String × α) :=
  match d with
  | [] => [(k, v)]
  | (k2, v2) :: rest => if k2 = k then (k, v) :: rest else (k2, v2) :: dictSet rest k v

/-- Membership test of a key, mirroring `k in d` on a Python dict. -/
def dictMem {α : Type} (d : List (String × α)) (k : String) : Bool :=
  (dictGet d k).isSome

/-! ## Small string helpers shared by the embedding -/

/-- Check that `pre` is a prefix of `l`. -/
def listPre (pre l : List Char) : Bool :=
  match pre, l with
  | [], _ => true
  | _ :: _, [] => false
  | p :: ps, c :: cs => p = c && listPre ps cs

/-- Check that `sub` occurs as a contiguous run inside `l`
(the Python substring test `sub in l`). -/
def listInside (sub l : List Char) : Bool :=
  match l with
  | [] => listPre sub []
  | _ :: cs => listPre sub l || listInside sub cs

/-- Python substring containment `sub in s`. -/
def strInside (sub s : String) : Bool :=
  listInside sub.toList s.toList

/-- Python `s.startswith(pre)` (structural, so the kernel can evaluate it). -/
def strStarts (s pre : String) : Bool :=
  listPre pre.toList s.toList

/-- Python `s.endswith(suf)` (structural, so the kernel can evaluate it). -/
def strEnds (s suf : String) : Bool :=
  listPre suf.toList.reverse s.toList.reverse

/-- Python `c in s` for a single character (structural). -/
def strHasChar (s : String) (c : Char) : Bool :=
  s.toList.contains c

/-- Split a character list at the first occurrence of `c`; `none` when `c`
is absent (so that Python `s.split(c, 1)[1]` would raise `IndexError`). -/
def splitOnceChar (c : Char) (s : List Char) : Option (List Char × List Char) :=
  match s with
  | [] => none
  | x :: xs =>
    if x = c then some ([], xs)
    else
      match splitOnceChar c xs with
      | none => none
      | some (a, b) => some (x :: a, b)

/-- Python `s.split(";", 1)` restricted to the two-piece case. -/
def splitOnceSemi (s : String) : Option (String × String) :=
  (splitOnceChar (Char.ofNat 59) s.toList).map (fun p => (String.mk p.1, String.mk p.2))

/-- Strip leading and trailing whitespace, as `int()` does before parsing. -/
def stripWS (l : List Char) : List Char :=
  ((l.dropWhile Char.isWhitespace).reverse.dropWhile Char.isWhitespace).reverse

/-- Continuation of a digit group: digits, with each underscore followed by a
digit. -/
def validTail (l : List Char) : Bool :=
  match l with
  | [] => true
  | c :: rest =>
    if c = Char.ofNat 95 then
      match rest with
      | [] => false
      | d :: rest2 => d.isDigit && validTail rest2
    else c.isDigit && validTail rest

/-- Digit-group validity for Python `int()`: non-empty, starts with a digit,
underscores single and strictly between digits. -/
def validDigits (l : List Char) : Bool :=
  match l with
  | [] => false
  | c :: rest => c.isDigit && validTail rest

/-- Value of a digit list, underscores skipped. -/
def digitsVal (l : List Char) : Nat :=
  l.foldl (fun a c => if c.isDigit then a * 10 + (c.toNat - 48) else a) 0

/-- Model of Python `int(str)`: strip whitespace, optional sign, then digits
possibly separated by single underscores.  Returns `none` exactly when the
Python call raises `ValueError`.  (`\w`-style Unicode digits are out of scope:
inputs in this development are ASCII.) -/
def pyInt (s : String) : Option Int :=
  let l := stripWS s.toList
  match l with
  | c :: rest =>
    if c = Char.ofNat 45 then (if validDigits rest then some (-(digitsVal rest : Int)) else none)
    else if c = Char.ofNat 43 then (if validDigits rest then some (digitsVal rest : Int) else none)
    else if validDigits l then some (digitsVal l : Int) else none
  | [] => none

/-- UTF-8 encoding of one character. -/
def utf8Bytes (c : Char) : List Nat :=
  let n := c.toNat
  if n < 128 then [n]
  else if n < 2048 then [192 + n / 64, 128 + n % 64]
  else if n < 65536 then [224 + n / 4096, 128 + (n / 64) % 64, 128 + n % 64]
  else [240 + n / 262144, 128 + (n / 4096) % 64, 128 + (n / 64) % 64, 128 + n % 64]

/-- Python `str.encode()`: UTF-8 bytes of the string. -/
def pyEncode (s : String) : List Nat :=
  (s.toList.map utf8Bytes).flatten

/-- Model of `os.path.basename` on POSIX: the part after the last slash. -/
def basename (p : String) : String :=
  String.mk ((p.toList.reverse.takeWhile (fun c => c ≠ Char.ofNat 47)).reverse)

/-! ## HAR capture model

One `Entry` is one transaction of the `session.har` capture, restricted to the
fields `URLDownloader.execute` reads.  `Option` marks keys that may be absent
from the JSON object (`none` = key missing). -/

structure Header where
  name : String
  value : String
deriving DecidableEq, Repr

structure Content where
  size : Option Int
  mimeType : Option String
  encoding : Option String
  text : Option String
deriving DecidableEq, Repr

structure HarResponse where
  status : Int
  headers : List Header
  content : Content
  redirectURL : Option String
  errorMessage : Option String
deriving DecidableEq, Repr

structure HarRequest where
  url : String
  method : String
  headers : List Header
deriving DecidableEq, Repr

structure Entry where
  request : HarRequest
  response : HarResponse
  serverIPAddress : Option String
deriving DecidableEq, Repr

/-- Folding a HAR header list into a dict: the comprehension
`header name - value for header in headers` keeps the LAST value for a
repeated name. -/
def headerDict (hs : List Header) (k : String) : Option String :=
  hs.foldl (fun acc h => if h.name = k then some h.value else acc) none

/-! ## Redirect chain builder -/

structure Redirect where
  status : Int
  redirectingUrl : String
  redirectingIp : String
  redirectingTo : String
deriving DecidableEq, Repr

/-- The transaction's server IP, or the literal used when the capture has
none. -/
def ipOf (e : Entry) : String :=
  e.serverIPAddress.getD "Not Available"

/-- The declared redirect target, or the literal used when absent. -/
def targetOf (e : Entry) : String :=
  e.response.redirectURL.getD "Not Available"

/-- HTTP-status redirect detection: a response status in
301, 302, 303, 307, 308 yields one event with that status. -/
def statusRedirects (e : Entry) : List Redirect :=
  if e.response.status ∈ ([301, 302, 303, 307, 308] : List Int) then
    [{ status := e.response.status, redirectingUrl := e.request.url,
       redirectingIp := ipOf e, redirectingTo := targetOf e }]
  else []

/-- Parsing of a `refresh` header value.  Mirrors the source: split once on
the semicolon (a missing semicolon raises `IndexError`, caught), parse the
delay with `int` (failure raises `ValueError`, caught), then require delay at
most 15 and a target beginning with `url=`.  Any failure, and a delay above
15 or a missing `url=` marker, yields `none`; otherwise the delay and the
text after `url=`. -/
def parseRefresh (v : String) : Option (Int × String) :=
  match splitOnceSemi v with
  | none => none
  | some (a, b) =>
    match pyInt a with
    | none => none
    | some n =>
      if n ≤ 15 ∧ strStarts b "url=" = true then some (n, b.drop 4) else none

/-- Meta-refresh detection on the `refresh` response header: a successful
parse yields one event carrying the response's own status code. -/
def refreshRedirects (e : Entry) : List Redirect :=
  match headerDict e.response.headers "refresh" with
  | none => []
  | some v =>
    match parseRefresh v with
    | none => []
    | some p =>
      [{ status := e.response.status, redirectingUrl := e.request.url,
         redirectingIp := ipOf e, redirectingTo := p.2 }]

/-- Events contributed by one transaction: the status detection runs first,
then the refresh detection, matching statement order in the loop body. -/
def entryRedirects (e : Entry) : List Redirect :=
  statusRedirects e ++ refreshRedirects e

/-- The full ordered redirect list of a capture. -/
def collectRedirects (es : List Entry) : List Redirect :=
  (es.map entryRedirects).flatten

/-- The ordered response-error list: one pair per transaction whose response
carries an `_errorMessage`. -/
def collectErrors (es : List Entry) : List (String × String) :=
  es.filterMap (fun e => e.response.errorMessage.map (fun m => (e.request.url, m)))

/-! ## Model of `urllib.parse.urlparse` / `geturl`

Restricted to the semantics the source exercises: scheme split (leading ASCII
letter, scheme characters, first colon), netloc split after `//` up to the
first of `/`, `?`, `#`, then fragment at the first `#`, query at the first
`?`, and the params segment after the first `;` of the last path segment. -/

structure ParseResult where
  scheme : String
  netloc : String
  path : String
  params : String
  query : String
  fragment : String
deriving DecidableEq, Repr

/-- Characters allowed in a URL scheme. -/
def schemeChar (c : Char) : Bool :=
  c.isAlphanum || c = Char.ofNat 43 || c = Char.ofNat 45 || c = Char.ofNat 46

/-- Split off `scheme:` when the text before the first colon is a non-empty
run of scheme characters starting with an ASCII letter; the scheme is
lowercased. -/
def splitScheme (s : List Char) : List Char × List Char :=
  match s.findIdx? (fun c => c = Char.ofNat 58) with
  | none => ([], s)
  | some i =>
    if i = 0 then ([], s)
    else
      let pre := s.take i
      if (pre.headD (Char.ofNat 48)).isAlpha && pre.all schemeChar then
        (pre.map Char.toLower, s.drop (i + 1))
      else ([], s)

/-- Split the network location after a leading `//`: it extends to the first
`/`, `?` or `#`. -/
def splitNetloc (s : List Char) : List Char × List Char :=
  let rest := s.drop 2
  let nl := rest.takeWhile
    (fun c => c ≠ Char.ofNat 47 && c ≠ Char.ofNat 63 && c ≠ Char.ofNat 35)
  (nl, rest.drop nl.length)

/-- Split the params segment: the part of the last path segment after its
first semicolon (searched in the whole path when it has no slash). -/
def splitParams (p : List Char) : List Char × List Char :=
  if p.contains (Char.ofNat 47) then
    let seg := (p.reverse.takeWhile (fun c => c ≠ Char.ofNat 47)).reverse
    let pre := p.take (p.length - seg.length)
    match splitOnceChar (Char.ofNat 59) seg with
    | none => (p, [])
    | some (a, b) => (pre ++ a, b)
  else
    match splitOnceChar (Char.ofNat 59) p with
    | none => (p, [])
    | some (a, b) => (a, b)

/-- Model of `urllib.parse.urlparse`. -/
def urlparse (url : String) : ParseResult :=
  let l := url.toList
  let sr := splitScheme l
  let nr := if listPre [Char.ofNat 47, Char.ofNat 47] sr.2 then splitNetloc sr.2 else ([], sr.2)
  let fr := match splitOnceChar (Char.ofNat 35) nr.2 with
    | none => (nr.2, [])
    | some (a, b) => (a, b)
  let qr := match splitOnceChar (Char.ofNat 63) fr.1 with
    | none => (fr.1, [])
    | some (a, b) => (a, b)
  let pp := splitParams qr.1
  { scheme := String.mk sr.1, netloc := String.mk nr.1, path := String.mk pp.1,
    params := String.mk pp.2, query := String.mk qr.2, fragment := String.mk fr.2 }

/-- Model of `ParseResult.geturl` (`urlunparse`). -/
def geturl (p : ParseResult) : String :=
  let u0 := p.path
  let u1 := if p.params ≠ "" then u0 ++ ";" ++ p.params else u0
  let u2 :=
    if p.netloc ≠ "" ∨ strStarts u1 "//" = true then
      "//" ++ p.netloc ++ (if u1 ≠ "" ∧ strStarts u1 "/" = false then "/" ++ u1 else u1)
    else u1
  let u3 := if p.scheme ≠ "" then p.scheme ++ ":" ++ u2 else u2
  let u4 := if p.query ≠ "" then u3 ++ "?" ++ p.query else u3
  if p.fragment ≠ "" then u4 ++ "#" ++ p.fragment else u4

/-! ## URL-derived filenames -/

/-- Progressive shortening of an over-long URL: drop the fragment, then the
params, then the query, then the path, stopping at the first candidate of at
most 150 characters; the last candidate is kept even when still longer. -/
def shortenUrl (url : String) : String :=
  let requested := urlparse url
  if url.length ≤ 150 then url
  else
    let p1 := { requested with fragment := "" }
    let c1 := geturl p1
    if c1.length ≤ 150 then c1
    else
      let p2 := { p1 with params := "" }
      let c2 := geturl p2
      if c2.length ≤ 150 then c2
      else
        let p3 := { p2 with query := "" }
        let c3 := geturl p3
        if c3.length ≤ 150 then c3
        else geturl { p3 with path := "" }

/-- The successive candidates the shortening steps through, in order. -/
def urlCandidates (url : String) : List String :=
  let r := urlparse url
  let p1 := { r with fragment := "" }
  let p2 := { p1 with params := "" }
  let p3 := { p2 with query := "" }
  let p4 := { p3 with path := "" }
  [url, geturl p1, geturl p2, geturl p3, geturl p4]

/-- Filename derived from the request URL when no usable
`Content-Disposition` header exists: the path basename when it contains a
dot, otherwise the shortened URL. -/
def urlFilename (url : String) : String :=
  let base := basename (urlparse url).path
  if strHasChar base (Char.ofNat 46) then base else shortenUrl url

/-! ## Backtracking regex engine

A small engine faithful to the Python `re` semantics of the constructs used
by the two filename patterns: literals, single-character classes, greedy `?`,
non-greedy `.*?`, greedy `+`, capture groups, the backreference to group 1,
alternation (left branch preferred) and end-of-input.  `re.search` tries
match positions left to right; within one position greedy operators try the
longer branch first and non-greedy ones the shorter.  Fuel bounds the call
depth; it is chosen far above what the two fixed patterns can use. -/

abbrev Groups := List (Nat × List Char)

inductive RE where
  | lit : List Char → RE
  | cls : (Char → Bool) → RE
  | seq : RE → RE → RE
  | alt : RE → RE → RE
  | opt : RE → RE
  | starNG : RE → RE
  | star : RE → RE
  | plus : RE → RE
  | group : Nat → RE → RE
  | backref : Nat → RE
  | eos : RE

/-- Continuation-passing matcher; the first success in Python backtracking
order wins, and captured groups are recorded most-recent-first. -/
def reMatch (fuel : Nat) (r : RE) (s : List Char) (g : Groups)
    (k : List Char → Groups → Option Groups) : Option Groups :=
  match fuel with
  | 0 => none
  | fuel + 1 =>
    match r with
    | .lit cs => if listPre cs s then k (s.drop cs.length) g else none
    | .cls p =>
      match s with
      | [] => none
      | c :: rest => if p c then k rest g else none
    | .seq a b => reMatch fuel a s g (fun s2 g2 => reMatch fuel b s2 g2 k)
    | .alt a b =>
      match reMatch fuel a s g k with
      | some res => some res
      | none => reMatch fuel b s g k
    | .opt a =>
      match reMatch fuel a s g k with
      | some res => some res
      | none => k s g
    | .starNG a =>
      match k s g with
      | some res => some res
      | none => reMatch fuel a s g (fun s2 g2 => reMatch fuel (.starNG a) s2 g2 k)
    | .star a =>
      match reMatch fuel a s g (fun s2 g2 => reMatch fuel (.star a) s2 g2 k) with
      | some res => some res
      | none => k s g
    | .plus a => reMatch fuel a s g (fun s2 g2 => reMatch fuel (.star a) s2 g2 k)
    | .group n a =>
      reMatch fuel a s g (fun s2 g2 => k s2 ((n, s.take (s.length - s2.length)) :: g2))
    | .backref n =>
      let v := ((g.find? (fun p => p.1 = n)).map Prod.snd).getD []
      if listPre v s then k (s.drop v.length) g else none
    | .eos => if s.isEmpty then k s g else none

/-- Attempt a match anchored at the current position. -/
def reMatchHere (r : RE) (s : List Char) : Option Groups :=
  reMatch (8 * (s.length + 64)) r s [] (fun _ g => some g)

/-- Model of `re.search`: leftmost match position wins.  End-of-input refers
to the end of the original string, which every suffix shares. -/
def reSearch (r : RE) (s : List Char) : Option Groups :=
  match reMatchHere r s with
  | some g => some g
  | none =>
    match s with
    | [] => none
    | _ :: rest => reSearch r rest

/-- Captured text of group `n` of the leftmost match, as `match.group(n)`. -/
def reGroup (r : RE) (n : Nat) (s : String) : Option String :=
  (reSearch r s.toList).bind
    (fun g => (g.find? (fun p => p.1 = n)).map (fun p => String.mk p.2))

/-! ## The two Content-Disposition filename patterns -/

/-- Single quote character. -/
def squote : Char := Char.ofNat 39

/-- Double quote character. -/
def dquote : Char := Char.ofNat 34

/-- Backslash character. -/
def backslash : Char := Char.ofNat 92

/-- ASCII approximation of the regex word class (inputs here are ASCII). -/
def wordChar (c : Char) : Bool :=
  c.isAlphanum || c = Char.ofNat 95

/-- The trailing separator common to both patterns: a semicolon optionally
followed by one space, or end of input. -/
def sepRE : RE :=
  .alt (.seq (.lit [Char.ofNat 59]) (.opt (.lit [Char.ofNat 32]))) .eos

/-- ASCII_FILENAME_REGEX: literal, optional quote captured as group 1, a
non-greedy run of non-newline characters ending in a non-backslash captured
as group 2, the matching quote, then the separator. -/
def asciiFilenameRE : RE :=
  .seq (.lit "filename=".toList)
    (.seq (.group 1 (.opt (.cls (fun c => c = dquote || c = squote))))
      (.seq (.group 2 (.seq (.starNG (.cls (fun c => c ≠ Char.ofNat 10)))
                            (.cls (fun c => c ≠ backslash))))
        (.seq (.backref 1) sepRE)))

/-- UTF8_FILENAME_REGEX: literal with the two single quotes, then group 1 as
a greedy run of word characters, percent, hyphen or dot, then the
separator. -/
def utf8FilenameRE : RE :=
  .seq (.lit ("filename*=UTF-8".toList ++ [squote, squote]))
    (.seq (.group 1 (.plus (.cls (fun c =>
            wordChar c || c = Char.ofNat 37 || c = Char.ofNat 45 || c = Char.ofNat 46))))
      sepRE)

/-- Group 2 of the ASCII pattern searched in `s`. -/
def asciiSearch (s : String) : Option String :=
  reGroup asciiFilenameRE 2 s

/-- Group 1 of the UTF-8 pattern searched in `s`. -/
def utf8Search (s : String) : Option String :=
  reGroup utf8FilenameRE 1 s

/-- Filename taken from a non-empty Content-Disposition value: start from
the raw value, replace it by the ASCII capture when that pattern matches,
then replace the current value by the UTF-8 capture when that pattern
matches the current value.  Note the second search runs on the outcome of
the first, exactly as in the source. -/
def cdFilename (cd : String) : String :=
  let f1 := match asciiSearch cd with
    | some g => g
    | none => cd
  match utf8Search f1 with
  | some g => g
  | none => f1

/-! ## Content deduplication and the downloads map -/

/-- Record returned by the identification collaborator. -/
structure FileInfo where
  md5 : String
  sha1 : String
  sha256 : String
  size : Int
  ftype : String
deriving DecidableEq, Repr

/-- One downloads-map entry.  `path` numbers the temporary file whose name
the unit keeps. -/
structure ContentUnit where
  path : Nat
  filename : String
  size : Int
  url : String
  mimeType : String
  fileinfo : FileInfo
deriving DecidableEq, Repr

/-- State threaded through the loop over capture entries: the downloads
dict, the number of temporary content files written so far, and the number
of identification calls made so far. -/
structure DlState where
  downloads : List (String × ContentUnit)
  filesWritten : Nat
  identifyCalls : Nat
deriving DecidableEq, Repr

inductive PyError where
  | keyError
deriving DecidableEq, Repr

instance exceptDecEq {ε α : Type} [DecidableEq ε] [DecidableEq α] :
    DecidableEq (Except ε α) := fun a b =>
  match a, b with
  | .error e, .error f =>
    if h : e = f then isTrue (by rw [h])
    else isFalse (by intro hc; injection hc; exact h (by assumption))
  | .error _, .ok _ => isFalse (by intro hc; exact Except.noConfusion hc)
  | .ok _, .error _ => isFalse (by intro hc; exact Except.noConfusion hc)
  | .ok x, .ok y =>
    if h : x = y then isTrue (by rw [h])
    else isFalse (by intro hc; injection hc; exact h (by assumption))

/-- Decoded body bytes: when the content declares base64 encoding, attempt
the decode and fall back to the raw UTF-8 bytes of the text on failure;
otherwise encode the text directly.  The decoder is the standard-library
collaborator, passed as a function returning `none` on decode error. -/
def contentBytes (b64 : String → Option (List Nat)) (c : Content) (t : String) :
    List Nat :=
  if c.encoding = some "base64" then (b64 t).getD (pyEncode t) else pyEncode t

/-- Full filename resolution for one entry: a present non-empty
Content-Disposition header goes through the two patterns, otherwise the
filename derives from the request URL; an empty outcome falls back to
`UnknownFilename_` plus the first eight sha256 characters. -/
def resolveFilename (e : Entry) (fi : FileInfo) : String :=
  let f0 := match headerDict e.response.headers "Content-Disposition" with
    | some cd => if cd ≠ "" then cdFilename cd else urlFilename e.request.url
    | none => urlFilename e.request.url
  if f0 = "" then "UnknownFilename_" ++ fi.sha256.take 8 else f0

/-- Downloads handling for one entry (source lines 368 to 447).  An entry
with no `size` key or zero size contributes nothing.  A sized entry with no
`text` key raises `KeyError` at the `pop`.  Otherwise a fresh temporary file
is written and the identification collaborator invoked, unconditionally; the
dict entry keyed by the body md5 is created with the current file number
only when the key is new, and its remaining attributes are then assigned
from the current entry, overwriting previous values.  A missing `mimeType`
key raises `KeyError` at the final attribute assignment; the exception
propagates out of the whole pass, so the partially mutated state is
discarded. -/
def processEntryDownloads (identify : List Nat → FileInfo)
    (b64 : String → Option (List Nat)) (st : DlState) (e : Entry) :
    Except PyError DlState :=
  match e.response.content.size with
  | none => .ok st
  | some sz =>
    if sz = 0 then .ok st
    else
      match e.response.content.text with
      | none => .error .keyError
      | some t =>
        let bytes := contentBytes b64 e.response.content t
        let fi := identify bytes
        let base := match dictGet st.downloads fi.md5 with
          | some u => u
          | none => { path := st.filesWritten, filename := "", size := 0,
                      url := "", mimeType := "", fileinfo := fi }
        match e.response.content.mimeType with
        | none => .error .keyError
        | some mt =>
          let u2 : ContentUnit :=
            { base with filename := resolveFilename e fi, size := sz,
                        url := e.request.url, mimeType := mt, fileinfo := fi }
          .ok { downloads := dictSet st.downloads fi.md5 u2,
                filesWritten := st.filesWritten + 1,
                identifyCalls := st.identifyCalls + 1 }

/-- The loop over capture entries from a given state; an uncaught per-entry
exception aborts the remaining entries. -/
def processDownloadsFrom (identify : List Nat → FileInfo)
    (b64 : String → Option (List Nat)) :
    DlState → List Entry → Except PyError DlState
  | st, [] => .ok st
  | st, e :: es =>
    match processEntryDownloads identify b64 st e with
    | .error err => .error err
    | .ok st2 => processDownloadsFrom identify b64 st2 es

/-- The deduplication pass over a whole capture. -/
def processDownloads (identify : List Nat → FileInfo)
    (b64 : String → Option (List Nat)) (es : List Entry) :
    Except PyError DlState :=
  processDownloadsFrom identify b64
    { downloads := [], filesWritten := 0, identifyCalls := 0 } es

/-! ## Open-directory link classification -/

inductive LinkAction where
  | skipped
  | fileLink
  | folderLink
deriving DecidableEq, Repr

/-- Classification of one anchor href in `detect_open_directory` (source
lines 51 to 65): skip scheme-qualified links whose `://` falls in the first
ten characters unless they start with a dot, skip links starting with a
question mark, skip links starting with a slash that occur as a substring of
the page URI; of the rest, links ending in a slash are folders and the
others files.  The source indexes the first character, so an empty href
raises there; theorems below only use non-empty hrefs. -/
def classifyHref (pageUri href : String) : LinkAction :=
  if strInside "://" (href.take 10) && href.front ≠ Char.ofNat 46 then .skipped
  else if href.front = Char.ofNat 63 then .skipped
  else if href.front = Char.ofNat 47 && strInside href pageUri then .skipped
  else if strEnds href "/" then .folderLink
  else .fileLink

/-! ## Early control flow of `execute` -/

inductive ExecPath where
  | emptyReturn
  | getFetch
  | nonGetRequest
deriving DecidableEq, Repr

/-- Python test of the null byte escape occurring in the URI string. -/
def uriHasNull (uri : String) : Bool :=
  strHasChar uri (Char.ofNat 0)

/-- Control flow of `execute` up to the fetch decision (source lines 105 to
116): a do-not-download match returns an empty result; for the GET method
(the popped value, defaulting to GET) a URI containing a null byte returns
an empty result before any section is added or the fetch subprocess is
launched; otherwise the GET fetch or the plain non-GET relay proceeds. -/
def executeControl (noDlMatch : Bool) (dataMethod : Option String)
    (uri : String) : ExecPath :=
  if noDlMatch then .emptyReturn
  else
    let method := dataMethod.getD "GET"
    if method = "GET" then
      if uriHasNull uri then .emptyReturn else .getFetch
    else .nonGetRequest

/-! ## Concrete sample data used by witnesses and counterexamples -/

/-- Concrete identification collaborator for witnesses: the md5 field is the
byte list read back as characters, so equal bodies get equal hashes. -/
def cIdentify (bs : List Nat) : FileInfo :=
  { md5 := String.mk (bs.map Char.ofNat), sha1 := "", sha256 := "sha256demo",
    size := (bs.length : Int), ftype := "" }

/-- Concrete base64 collaborator for witnesses: always fails. -/
def cB64 : String → Option (List Nat) := fun _ => none

/-- Empty loop state. -/
def cInit : DlState := { downloads := [], filesWritten := 0, identifyCalls := 0 }

def entryOneResponse : HarResponse :=
  { status := 200, headers := [],
    content := { size := some 3, mimeType := some "text/plain",
                 encoding := none, text := some "abc" },
    redirectURL := none, errorMessage := none }

def entryOne : Entry :=
  { request := { url := "http://one/a.txt", method := "GET", headers := [] },
    response := entryOneResponse,
    serverIPAddress := none }

def entryTwo : Entry :=
  { request := { url := "http://two/b.bin", method := "GET", headers := [] },
    response := entryOneResponse,
    serverIPAddress := none }

/-- Entry with a sized body but no `mimeType` key in its content. -/
def cNoMimeEntry : Entry :=
  { request := { url := "http://three/c.txt", method := "GET", headers := [] },
    response := { status := 200, headers := [],
                  content := { size := some 3, mimeType := none,
                               encoding := none, text := some "abc" },
                  redirectURL := none, errorMessage := none },
    serverIPAddress := none }

def fiAbc : FileInfo :=
  { md5 := "abc", sha1 := "", sha256 := "sha256demo", size := 3, ftype := "" }

/-- The downloads-map unit after `entryOne` alone. -/
def uOne : ContentUnit :=
  { path := 0, filename := "a.txt", size := 3, url := "http://one/a.txt",
    mimeType := "text/plain", fileinfo := fiAbc }

/-- Loop state after processing `entryOne` alone. -/
def cOneState : DlState :=
  { downloads := [("abc", uOne)], filesWritten := 1, identifyCalls := 1 }

/-- Loop state after processing `entryOne` and then `entryTwo`, whose bodies
are identical: one key, but a second file write, a second identification
call, and every attribute except `path` taken from `entryTwo`. -/
def cRunState : DlState :=
  { downloads := [("abc",
      { path := 0, filename := "b.bin", size := 3, url := "http://two/b.bin",
        mimeType := "text/plain", fileinfo := fiAbc })],
    filesWritten := 2, identifyCalls := 2 }

def mkRefreshEntry (v : String) : Entry :=
  { request := { url := "http://o/", method := "GET", headers := [] },
    response := { status := 200, headers := [{ name := "refresh", value := v }],
                  content := { size := none, mimeType := none,
                               encoding := none, text := none },
                  redirectURL := none, errorMessage := none },
    serverIPAddress := none }

def eRefreshGood : Entry := mkRefreshEntry "10;url=/next"
def eRefresh30 : Entry := mkRefreshEntry "30;url=/next"
def eRefreshNonNumeric : Entry := mkRefreshEntry "abc;url=/next"
def eRefreshNoUrl : Entry := mkRefreshEntry "10;/next"

/-- Plain 301 redirect transaction. -/
def e301 : Entry :=
  { request := { url := "http://r/", method := "GET", headers := [] },
    response := { status := 301, headers := [],
                  content := { size := none, mimeType := none,
                               encoding := none, text := none },
                  redirectURL := some "http://t/", errorMessage := none },
    serverIPAddress := some "1.2.3.4" }

/-- A 301 transaction that also carries a valid refresh directive. -/
def eDouble : Entry :=
  { request := { url := "http://d/", method := "GET", headers := [] },
    response := { status := 301,
                  headers := [{ name := "refresh", value := "10;url=/x" }],
                  content := { size := none, mimeType := none,
                               encoding := none, text := none },
                  redirectURL := some "http://t2/", errorMessage := none },
    serverIPAddress := none }

/-! ## Dictionary lemmas -/

theorem mem_keys_dictSet {α : Type} (d : List (String × α)) (k a : String) (v : α) :
    a ∈ (dictSet d k v).map Prod.fst ↔ a = k ∨ a ∈ d.map Prod.fst := by
  induction d with
  | nil => simp [dictSet]
  | cons hd tl ih =>
    obtain ⟨k2, v2⟩ := hd
    by_cases hk : k2 = k
    · subst hk
      simp [dictSet]
    · simp only [dictSet, if_neg hk, List.map_cons, List.mem_cons, ih]
      tauto

theorem nodup_keys_dictSet {α : Type} (d : List (String × α)) (k : String) (v : α)
    (h : (d.map Prod.fst).Nodup) : ((dictSet d k v).map Prod.fst).Nodup := by
  induction d with
  | nil => simp [dictSet]
  | cons hd tl ih =>
    obtain ⟨k2, v2⟩ := hd
    rw [List.map_cons, List.nodup_cons] at h
    by_cases hk : k2 = k
    · subst hk
      simpa [dictSet] using h
    · rw [dictSet]
      simp only [if_neg hk, List.map_cons, List.nodup_cons]
      refine ⟨fun hmem => ?_, ih h.2⟩
      rcases (mem_keys_dictSet tl k k2 v).1 hmem with h1 | h1
      · exact hk h1
      · exact h.1 h1

/-! ## Lemmas about the deduplication loop -/

theorem keys_processEntryDownloads (identify : List Nat → FileInfo)
    (b64 : String → Option (List Nat)) (st : DlState) (e : Entry)
    (st2 : DlState) (a : String)
    (h : processEntryDownloads identify b64 st e = Except.ok st2)
    (ha : a ∈ st.downloads.map Prod.fst) : a ∈ st2.downloads.map Prod.fst := by
  cases hszq : e.response.content.size with
  | none =>
    simp only [processEntryDownloads, hszq] at h
    injection h with h2; subst h2; exact ha
  | some sz =>
    by_cases hz : sz = 0
    · simp only [processEntryDownloads, hszq, if_pos hz] at h
      injection h with h2; subst h2; exact ha
    · cases htq : e.response.content.text with
      | none => simp only [processEntryDownloads, hszq, if_neg hz, htq] at h; simp at h
      | some t =>
        cases hmtq : e.response.content.mimeType with
        | none =>
          simp only [processEntryDownloads, hszq, if_neg hz, htq, hmtq] at h
          simp at h
        | some mt =>
          simp only [processEntryDownloads, hszq, if_neg hz, htq, hmtq] at h
          injection h with h2; subst h2
          exact (mem_keys_dictSet _ _ _ _).2 (Or.inr ha)

theorem nodup_processEntryDownloads (identify : List Nat → FileInfo)
    (b64 : String → Option (List Nat)) (st : DlState) (e : Entry) (st2 : DlState)
    (h : processEntryDownloads identify b64 st e = Except.ok st2)
    (h0 : (st.downloads.map Prod.fst).Nodup) : (st2.downloads.map Prod.fst).Nodup := by
  cases hszq : e.response.content.size with
  | none =>
    simp only [processEntryDownloads, hszq] at h
    injection h with h2; subst h2; exact h0
  | some sz =>
    by_cases hz : sz = 0
    · simp only [processEntryDownloads, hszq, if_pos hz] at h
      injection h with h2; subst h2; exact h0
    · cases htq : e.response.content.text with
      | none => simp only [processEntryDownloads, hszq, if_neg hz, htq] at h; simp at h
      | some t =>
        cases hmtq : e.response.content.mimeType with
        | none =>
          simp only [processEntryDownloads, hszq, if_neg hz, htq, hmtq] at h
          simp at h
        | some mt =>
          simp only [processEntryDownloads, hszq, if_neg hz, htq, hmtq] at h
          injection h with h2; subst h2
          exact nodup_keys_dictSet _ _ _ h0

theorem md5_mem_processEntryDownloads (identify : List Nat → FileInfo)
    (b64 : String → Option (List Nat)) (st : DlState) (e : Entry) (st2 : DlState)
    (sz : Int) (t : String)
    (hsz : e.response.content.size = some sz) (hnz : ¬ sz = 0)
    (ht : e.response.content.text = some t)
    (h : processEntryDownloads identify b64 st e = Except.ok st2) :
    (identify (contentBytes b64 e.response.content t)).md5 ∈ st2.downloads.map Prod.fst := by
  simp only [processEntryDownloads, hsz, ht, if_neg hnz] at h
  cases hmt : e.response.content.mimeType with
  | none => rw [hmt] at h; simp at h
  | some mt =>
    rw [hmt] at h
    injection h with h2
    subst h2
    exact (mem_keys_dictSet _ _ _ _).2 (Or.inl rfl)

theorem keys_processDownloadsFrom (identify : List Nat → FileInfo)
    (b64 : String → Option (List Nat)) (es : List Entry) :
    ∀ (st st2 : DlState) (a : String),
      processDownloadsFrom identify b64 st es = Except.ok st2 →
      a ∈ st.downloads.map Prod.fst → a ∈ st2.downloads.map Prod.fst := by
  induction es with
  | nil =>
    intro st st2 a h ha
    simp only [processDownloadsFrom] at h
    injection h with h2; subst h2; exact ha
  | cons e rest ih =>
    intro st st2 a h ha
    simp only [processDownloadsFrom] at h
    cases hp : processEntryDownloads identify b64 st e with
    | error err => rw [hp] at h; simp at h
    | ok st1 =>
      rw [hp] at h
      exact ih st1 st2 a h (keys_processEntryDownloads identify b64 st e st1 a hp ha)

theorem nodup_processDownloadsFrom (identify : List Nat → FileInfo)
    (b64 : String → Option (List Nat)) (es : List Entry) :
    ∀ (st st2 : DlState),
      processDownloadsFrom identify b64 st es = Except.ok st2 →
      (st.downloads.map Prod.fst).Nodup → (st2.downloads.map Prod.fst).Nodup := by
  induction es with
  | nil =>
    intro st st2 h h0
    simp only [processDownloadsFrom] at h
    injection h with h2; subst h2; exact h0
  | cons e rest ih =>
    intro st st2 h h0
    simp only [processDownloadsFrom] at h
    cases hp : processEntryDownloads identify b64 st e with
    | error err => rw [hp] at h; simp at h
    | ok st1 =>
      rw [hp] at h
      exact ih st1 st2 h (nodup_processEntryDownloads identify b64 st e st1 hp h0)

theorem md5_mem_processDownloadsFrom (identify : List Nat → FileInfo)
    (b64 : String → Option (List Nat)) (es : List Entry) :
    ∀ (st st2 : DlState),
      processDownloadsFrom identify b64 st es = Except.ok st2 →
      ∀ e ∈ es, ∀ (sz : Int) (t : String),
        e.response.content.size = some sz → ¬ sz = 0 →
        e.response.content.text = some t →
        (identify (contentBytes b64 e.response.content t)).md5 ∈
          st2.downloads.map Prod.fst := by
  induction es with
  | nil =>
    intro st st2 _ e he
    exact absurd he (List.not_mem_nil e)
  | cons e2 rest ih =>
    intro st st2 h e he sz t hsz hnz ht
    simp only [processDownloadsFrom] at h
    cases hp : processEntryDownloads identify b64 st e2 with
    | error err => rw [hp] at h; simp at h
    | ok st1 =>
      rw [hp] at h
      rcases List.mem_cons.1 he with he1 | he1
      · subst he1
        exact keys_processDownloadsFrom identify b64 rest st1 st2 _ h
          (md5_mem_processEntryDownloads identify b64 st e st1 sz t hsz hnz ht hp)
      · exact ih st1 st2 h e he1 sz t hsz hnz ht

/-- C1: for every capture, the deduplication pass keys the downloads map by
the body md5 with no duplicate keys (at most one ContentUnit per distinct
body hash), and every transaction with a decoded body maps to the entry
keyed by its body's md5 — so any two transactions with equal body hashes
map to the same single unit. -/
theorem c1_dedup_at_most_one_unit_per_hash (identify : List Nat → FileInfo)
    (b64 : String → Option (List Nat)) (es : List Entry) (st : DlState)
    (h : processDownloads identify b64 es = Except.ok st) :
    (st.downloads.map Prod.fst).Nodup ∧
    ∀ e ∈ es, ∀ (sz : Int) (t : String),
      e.response.content.size = some sz → ¬ sz = 0 →
      e.response.content.text = some t →
      (identify (contentBytes b64 e.response.content t)).md5 ∈
        st.downloads.map Prod.fst := by
  constructor
  · exact nodup_processDownloadsFrom identify b64 es _ st h (by simp)
  · exact md5_mem_processDownloadsFrom identify b64 es _ st h

/-- Witness for C1 at a concrete two-transaction capture whose bodies are
identical. -/
theorem c1_dedup_witness :
    processDownloads cIdentify cB64 [entryOne, entryTwo] = Except.ok cRunState ∧
    (cRunState.downloads.map Prod.fst).Nodup ∧
    (cIdentify (contentBytes cB64 entryOne.response.content "abc")).md5 ∈
      cRunState.downloads.map Prod.fst :=
  ⟨by decide,
   (c1_dedup_at_most_one_unit_per_hash cIdentify cB64 [entryOne, entryTwo]
     cRunState (by decide)).1,
   (c1_dedup_at_most_one_unit_per_hash cIdentify cB64 [entryOne, entryTwo]
     cRunState (by decide)).2 entryOne (by simp) 3 "abc" rfl (by decide) rfl⟩

/-- C2 counterexample: processing two transactions with identical bodies
writes a second temporary file, re-invokes identification, and overwrites
the unit's origin URL with the second transaction's URL. -/
theorem c2_repeat_sighting_counterexample :
    processDownloads cIdentify cB64 [entryOne, entryTwo] = Except.ok cRunState ∧
    cRunState.filesWritten = 2 ∧
    cRunState.identifyCalls = 2 ∧
    (dictGet cRunState.downloads "abc").map ContentUnit.url = some "http://two/b.bin" ∧
    "http://two/b.bin" ≠ "http://one/a.txt" := by
  refine ⟨by decide, rfl, rfl, by decide, by decide⟩

/-- C2 as amended: on a repeat sighting of an existing hash, only the
persisted-file number is kept from the first sighting; a new temporary file
is still written and identification re-invoked, and the unit's filename,
size, url, mimeType and fileinfo are overwritten from the current
transaction (last-seen wins, in particular for the origin URL). -/
theorem c2_repeat_sighting_amended (identify : List Nat → FileInfo)
    (b64 : String → Option (List Nat)) (st : DlState) (e : Entry)
    (sz : Int) (t mt : String) (u0 : ContentUnit)
    (hsz : e.response.content.size = some sz) (hnz : ¬ sz = 0)
    (ht : e.response.content.text = some t)
    (hmt : e.response.content.mimeType = some mt)
    (hprev : dictGet st.downloads
      (identify (contentBytes b64 e.response.content t)).md5 = some u0) :
    processEntryDownloads identify b64 st e = Except.ok
      { downloads := dictSet st.downloads
          (identify (contentBytes b64 e.response.content t)).md5
          { path := u0.path,
            filename := resolveFilename e (identify (contentBytes b64 e.response.content t)),
            size := sz, url := e.request.url, mimeType := mt,
            fileinfo := identify (contentBytes b64 e.response.content t) },
        filesWritten := st.filesWritten + 1,
        identifyCalls := st.identifyCalls + 1 } := by
  simp only [processEntryDownloads, hsz, ht, hmt, if_neg hnz, hprev]

/-- Witness for C2 as amended, at the repeat sighting of the body of
`entryOne` served again by `entryTwo`. -/
theorem c2_repeat_sighting_witness :
    processEntryDownloads cIdentify cB64 cOneState entryTwo = Except.ok
      { downloads := dictSet cOneState.downloads
          (cIdentify (contentBytes cB64 entryTwo.response.content "abc")).md5
          { path := uOne.path,
            filename := resolveFilename entryTwo
              (cIdentify (contentBytes cB64 entryTwo.response.content "abc")),
            size := 3, url := entryTwo.request.url, mimeType := "text/plain",
            fileinfo := cIdentify (contentBytes cB64 entryTwo.response.content "abc") },
        filesWritten := cOneState.filesWritten + 1,
        identifyCalls := cOneState.identifyCalls + 1 } :=
  c2_repeat_sighting_amended cIdentify cB64 cOneState entryTwo 3 "abc"
    "text/plain" uOne rfl (by decide) rfl rfl (by decide)

/-- Content declared base64-encoded, used by the C3 witness. -/
def cB64Content : Content :=
  { size := some 3, mimeType := some "text/plain",
    encoding := some "base64", text := some "abc" }

/-- C3 counterexample: an entry with a sized body but no content `mimeType`
key aborts the whole pass with a `KeyError`, so the remaining entries
contribute nothing, although the remaining entry alone processes fine. -/
theorem c3_entry_failure_counterexample :
    processDownloads cIdentify cB64 [cNoMimeEntry, entryOne] =
      Except.error PyError.keyError ∧
    processDownloads cIdentify cB64 [entryOne] = Except.ok cOneState :=
  ⟨by decide, by decide⟩

/-- C3 as amended: a base64 decode failure falls back to the raw UTF-8 bytes
of the text, and a malformed refresh directive contributes no event while
the remaining entries still contribute; but a sized entry whose content
lacks the `mimeType` key raises `KeyError`, and a raised per-entry error
aborts processing of all remaining entries. -/
theorem c3_error_handling_amended (identify : List Nat → FileInfo)
    (b64 : String → Option (List Nat)) (st : DlState) (e eb : Entry)
    (es : List Entry) (c : Content) (t v : String) (sz : Int) (err : PyError) :
    (c.encoding = some "base64" → contentBytes (fun _ => none) c t = pyEncode t) ∧
    (headerDict e.response.headers "refresh" = some v → parseRefresh v = none →
      collectRedirects (e :: es) = statusRedirects e ++ collectRedirects es) ∧
    (eb.response.content.size = some sz → ¬ sz = 0 →
      eb.response.content.text = some t → eb.response.content.mimeType = none →
      processEntryDownloads identify b64 st eb = Except.error PyError.keyError) ∧
    (processEntryDownloads identify b64 st eb = Except.error err →
      processDownloadsFrom identify b64 st (eb :: es) = Except.error err) := by
  refine ⟨?_, ?_, ?_, ?_⟩
  · intro henc
    simp [contentBytes, henc]
  · intro hv hp
    simp [collectRedirects, entryRedirects, refreshRedirects, hv, hp]
  · intro hsz hnz ht hmt
    simp only [processEntryDownloads, hsz, ht, hmt, if_neg hnz]
  · intro hp
    simp only [processDownloadsFrom, hp]

/-- Witness for C3 as amended, at a concrete base64 content, a concrete
malformed refresh entry, and the concrete missing-mimeType entry. -/
theorem c3_error_handling_witness :
    contentBytes (fun _ => none) cB64Content "abc" = pyEncode "abc" ∧
    collectRedirects [eRefreshNoUrl, entryOne] =
      statusRedirects eRefreshNoUrl ++ collectRedirects [entryOne] ∧
    processEntryDownloads cIdentify cB64 cInit cNoMimeEntry =
      Except.error PyError.keyError ∧
    processDownloadsFrom cIdentify cB64 cInit [cNoMimeEntry, entryOne] =
      Except.error PyError.keyError :=
  ⟨(c3_error_handling_amended cIdentify cB64 cInit eRefreshNoUrl cNoMimeEntry
      [entryOne] cB64Content "abc" "10;/next" 3 PyError.keyError).1 rfl,
   (c3_error_handling_amended cIdentify cB64 cInit eRefreshNoUrl cNoMimeEntry
      [entryOne] cB64Content "abc" "10;/next" 3 PyError.keyError).2.1 (by decide) (by decide),
   (c3_error_handling_amended cIdentify cB64 cInit eRefreshNoUrl cNoMimeEntry
      [entryOne] cB64Content "abc" "10;/next" 3 PyError.keyError).2.2.1 rfl
     (by decide) rfl rfl,
   (c3_error_handling_amended cIdentify cB64 cInit eRefreshNoUrl cNoMimeEntry
      [entryOne] cB64Content "abc" "10;/next" 3 PyError.keyError).2.2.2 (by decide)⟩

/-- C4 counterexample: a well-formed refresh directive with delay 10 on a
200 response yields an event whose status is 200, the transaction's own
response status, not 0. -/
theorem c4_meta_refresh_status_counterexample :
    refreshRedirects eRefreshGood =
      [{ status := 200, redirectingUrl := "http://o/",
         redirectingIp := "Not Available", redirectingTo := "/next" }] ∧
    ¬ (200 : Int) = 0 :=
  ⟨by decide, by decide⟩

/-- C4 as amended: a well-formed refresh directive with delay at most 15
yields one event whose status is the transaction's own response status (not
0), whose origin is the request URL, and whose target is the text after
`url=`. -/
theorem c4_meta_refresh_amended (e : Entry) (v a b : String) (n : Int)
    (hv : headerDict e.response.headers "refresh" = some v)
    (hsplit : splitOnceSemi v = some (a, b))
    (hn : pyInt a = some n) (hle : n ≤ 15) (hurl : strStarts b "url=" = true) :
    refreshRedirects e =
      [{ status := e.response.status, redirectingUrl := e.request.url,
         redirectingIp := ipOf e, redirectingTo := b.drop 4 }] := by
  simp only [refreshRedirects, parseRefresh, hv, hsplit, hn]
  rw [if_pos ⟨hle, hurl⟩]

/-- Witness for C4 as amended at the concrete directive `10;url=/next`. -/
theorem c4_meta_refresh_witness :
    refreshRedirects eRefreshGood =
      [{ status := eRefreshGood.response.status,
         redirectingUrl := eRefreshGood.request.url,
         redirectingIp := ipOf eRefreshGood,
         redirectingTo := "url=/next".drop 4 }] :=
  c4_meta_refresh_amended eRefreshGood "10;url=/next" "10" "url=/next" 10
    (by decide) (by decide) (by decide) (by decide) (by decide)

/-- C5 counterexample: a 301 transaction that also carries a valid refresh
directive yields two RedirectEvents with status 301, not exactly one. -/
theorem c5_exactly_one_counterexample :
    eDouble.response.status ∈ ([301, 302, 303, 307, 308] : List Int) ∧
    ((entryRedirects eDouble).filter (fun r => r.status == 301)).length = 2 :=
  ⟨by decide, by decide⟩

/-- C5 as amended: a transaction whose status is in the redirect set yields
exactly one event from the status detection, carrying that exact status (a
valid refresh directive on the same transaction can add a second event with
the same status), and both the redirect list and the error list are
concatenation homomorphisms over the capture, so they follow capture
order. -/
theorem c5_status_redirect_amended (e : Entry) (es es2 : List Entry)
    (h : e.response.status ∈ ([301, 302, 303, 307, 308] : List Int)) :
    statusRedirects e =
      [{ status := e.response.status, redirectingUrl := e.request.url,
         redirectingIp := ipOf e, redirectingTo := targetOf e }] ∧
    collectRedirects (es ++ es2) = collectRedirects es ++ collectRedirects es2 ∧
    collectErrors (es ++ es2) = collectErrors es ++ collectErrors es2 := by
  refine ⟨by simp [statusRedirects, h], ?_, ?_⟩
  · simp [collectRedirects]
  · simp [collectErrors]

/-- Witness for C5 as amended at a concrete 301 transaction and a concrete
capture split. -/
theorem c5_status_redirect_witness :
    statusRedirects e301 =
      [{ status := e301.response.status, redirectingUrl := e301.request.url,
         redirectingIp := ipOf e301, redirectingTo := targetOf e301 }] ∧
    collectRedirects ([eRefreshGood] ++ [e301]) =
      collectRedirects [eRefreshGood] ++ collectRedirects [e301] ∧
    collectErrors ([eRefreshGood] ++ [e301]) =
      collectErrors [eRefreshGood] ++ collectErrors [e301] :=
  c5_status_redirect_amended e301 [eRefreshGood] [e301] (by decide)

/-- C6: the refresh value `10;url=/next` yields one meta-refresh event
targeting `/next`; `30;url=/next` yields none (delay above 15); a
non-numeric delay and a missing `url=` marker yield none and are skipped
silently; and a capture with malformed refresh entries still yields the
events of its well-formed entries. -/
theorem c6_refresh_directive_examples :
    refreshRedirects eRefreshGood =
      [{ status := 200, redirectingUrl := "http://o/",
         redirectingIp := "Not Available", redirectingTo := "/next" }] ∧
    refreshRedirects eRefresh30 = [] ∧
    refreshRedirects eRefreshNonNumeric = [] ∧
    refreshRedirects eRefreshNoUrl = [] ∧
    collectRedirects [eRefresh30, eRefreshNonNumeric, eRefreshNoUrl, eRefreshGood] =
      refreshRedirects eRefreshGood :=
  ⟨by decide, by decide, by decide, by decide, by decide⟩

/-- Header value carrying both an ASCII `filename=` parameter and an RFC
5987 `filename*=` parameter. -/
def cdBothHeader : String :=
  "filename=\"my file.txt\"; filename*=UTF-8" ++ String.mk [squote, squote] ++
    "caf%C3%A9.txt"

/-- Header value carrying only the RFC 5987 parameter. -/
def cdUtf8Header : String :=
  "filename*=UTF-8" ++ String.mk [squote, squote] ++ "caf%C3%A9.txt"

/-- C7 counterexample: on a header where both patterns match the raw value,
the resolved filename is the ASCII capture, not the UTF-8 capture (the UTF-8
pattern is searched in the ASCII result, where it no longer matches); and
even a pure UTF-8 header yields the percent-encoded capture, not the decoded
name. -/
theorem c7_filename_override_counterexample :
    asciiSearch cdBothHeader = some "my file.txt" ∧
    utf8Search cdBothHeader = some "caf%C3%A9.txt" ∧
    cdFilename cdBothHeader = "my file.txt" ∧
    ¬ "my file.txt" = "caf%C3%A9.txt" ∧
    cdFilename cdUtf8Header = "caf%C3%A9.txt" ∧
    ¬ "caf%C3%A9.txt" = "café.txt" :=
  ⟨by decide, by decide, by decide, by decide, by decide, by decide⟩

/-- C7 as amended: the ASCII pattern is applied first to the raw header
value, and the UTF-8 pattern is then applied to the result of that step —
so it overrides only when it matches that intermediate string (its capture
used without percent-decoding); when neither pattern matches, the raw value
is used verbatim. -/
theorem c7_filename_resolution_amended (s g u : String) :
    (asciiSearch s = some g → utf8Search g = none → cdFilename s = g) ∧
    (asciiSearch s = some g → utf8Search g = some u → cdFilename s = u) ∧
    (asciiSearch s = none → utf8Search s = some u → cdFilename s = u) ∧
    (asciiSearch s = none → utf8Search s = none → cdFilename s = s) := by
  refine ⟨?_, ?_, ?_, ?_⟩ <;> intro h1 h2 <;> simp [cdFilename, h1, h2]

/-- Witness for C7 as amended at the dual-parameter header. -/
theorem c7_filename_resolution_witness :
    cdFilename cdBothHeader = "my file.txt" :=
  (c7_filename_resolution_amended cdBothHeader "my file.txt" "x").1
    (by decide) (by decide)

/-- Over-long URL whose excessive length sits in the host, so that no
truncation step can reach 150 characters. -/
def longHostUrl : String :=
  "http://" ++ String.mk (List.replicate 160 (Char.ofNat 97)) ++ "/x"

/-- Entry requesting `longHostUrl` with no Content-Disposition header. -/
def eLongUrl : Entry :=
  { request := { url := longHostUrl, method := "GET", headers := [] },
    response := entryOneResponse,
    serverIPAddress := none }

/-- C8 counterexample: with the over-long host URL every truncation
candidate stays above 150 characters, yet the filename is the non-empty
stripped URL — the `UnknownFilename_` fallback is not applied. -/
theorem c8_truncation_fallback_counterexample :
    150 < longHostUrl.length ∧
    strHasChar (basename (urlparse longHostUrl).path) (Char.ofNat 46) = false ∧
    (urlCandidates longHostUrl).all (fun s => decide (150 < s.length)) = true ∧
    shortenUrl longHostUrl =
      "http://" ++ String.mk (List.replicate 160 (Char.ofNat 97)) ∧
    resolveFilename eLongUrl fiAbc = shortenUrl longHostUrl ∧
    ¬ resolveFilename eLongUrl fiAbc = "UnknownFilename_" ++ fiAbc.sha256.take 8 :=
  ⟨by decide, by decide, by decide, by decide, by decide, by decide⟩

/-- C8 as amended: for an over-long URL whose path basename has no dot, the
resolver walks the candidates in the fixed order fragment-, params-, query-,
path-dropped and stops at the first of length at most 150, keeping the last
candidate when none qualifies; the `UnknownFilename_` fallback applies only
when the resulting name is the empty string, not when it is still longer
than 150 characters. -/
theorem c8_truncation_amended (url : String) (fi : FileInfo) (e : Entry)
    (hlen : 150 < url.length)
    (hdot : strHasChar (basename (urlparse url).path) (Char.ofNat 46) = false)
    (hcd : headerDict e.response.headers "Content-Disposition" = none)
    (hurl : e.request.url = url) :
    shortenUrl url =
      ((urlCandidates url).find? (fun s => decide (s.length ≤ 150))).getD
        ((urlCandidates url).getLastD "") ∧
    resolveFilename e fi =
      (if shortenUrl url = "" then "UnknownFilename_" ++ fi.sha256.take 8
       else shortenUrl url) := by
  have not150 : ¬ url.length ≤ 150 := by omega
  constructor
  · simp only [shortenUrl, urlCandidates, List.find?, List.getLastD,
      decide_eq_false not150, if_neg not150]
    by_cases h1 : (geturl { urlparse url with fragment := "" }).length ≤ 150
    · simp [h1]
    · simp only [decide_eq_false h1, if_neg h1]
      by_cases h2 :
          (geturl { { urlparse url with fragment := "" } with params := "" }).length ≤ 150
      · simp [h2]
      · simp only [decide_eq_false h2, if_neg h2]
        by_cases h3 :
            (geturl { { { urlparse url with fragment := "" } with params := "" } with
              query := "" }).length ≤ 150
        · simp [h3]
        · simp only [decide_eq_false h3, if_neg h3]
          by_cases h4 :
              (geturl { { { { urlparse url with fragment := "" } with params := "" } with
                query := "" } with path := "" }).length ≤ 150
          · simp [h4]
          · simp [h4]
  · simp [resolveFilename, hcd, hurl, urlFilename, hdot]

/-- Over-long URL whose query drop brings it under 150 characters. -/
def longQueryUrl : String :=
  "http://host/abc?" ++ String.mk (List.replicate 140 (Char.ofNat 98))

/-- Entry requesting `longQueryUrl` with no Content-Disposition header. -/
def eLongQuery : Entry :=
  { request := { url := longQueryUrl, method := "GET", headers := [] },
    response := entryOneResponse,
    serverIPAddress := none }

/-- Witness for C8 as amended at the long-query URL. -/
theorem c8_truncation_witness :
    shortenUrl longQueryUrl =
      ((urlCandidates longQueryUrl).find? (fun s => decide (s.length ≤ 150))).getD
        ((urlCandidates longQueryUrl).getLastD "") ∧
    resolveFilename eLongQuery fiAbc =
      (if shortenUrl longQueryUrl = "" then "UnknownFilename_" ++ fiAbc.sha256.take 8
       else shortenUrl longQueryUrl) :=
  c8_truncation_amended longQueryUrl fiAbc eLongQuery (by decide) (by decide)
    (by decide) rfl

/-- C9 counterexample: the root-relative link `/files` is not identical to
the page URL `http://h/files/sub`, yet it is skipped, because the source
tests substring containment, not identity. -/
theorem c9_self_link_counterexample :
    classifyHref "http://h/files/sub" "/files" = LinkAction.skipped ∧
    ¬ "/files" = "http://h/files/sub" :=
  ⟨by decide, by decide⟩

/-- C9 as amended: a non-empty anchor link starting with a slash (and with
no scheme marker in its first ten characters) is skipped if and only if it
occurs as a substring of the page's own URL; when it does not, it is kept
and classified as folder or file by its trailing slash. -/
theorem c9_root_relative_amended (pageUri href : String)
    (hne : ¬ href = "") (hslash : href.front = Char.ofNat 47)
    (hnoscheme : strInside "://" (href.take 10) = false) :
    (classifyHref pageUri href = LinkAction.skipped ↔
      strInside href pageUri = true) ∧
    (strInside href pageUri = false →
      classifyHref pageUri href =
        (if strEnds href "/" = true then LinkAction.folderLink
         else LinkAction.fileLink)) := by
  have base : classifyHref pageUri href =
      (if strInside href pageUri = true then LinkAction.skipped
       else if strEnds href "/" = true then LinkAction.folderLink
       else LinkAction.fileLink) := by
    simp [classifyHref, hnoscheme, hslash]
  cases hin : strInside href pageUri with
  | false =>
    refine ⟨?_, fun _ => by rw [base, hin, if_neg Bool.false_ne_true]⟩
    rw [base, hin, if_neg Bool.false_ne_true]
    constructor
    · intro hskip
      by_cases hend : strEnds href "/" = true <;> simp [hend] at hskip
    · intro ht
      exact absurd ht Bool.false_ne_true
  | true =>
    constructor
    · rw [base, hin]
      simp
    · intro hf
      simp at hf

/-- Witness for C9 as amended at a kept root-relative link. -/
theorem c9_root_relative_witness :
    (classifyHref "http://h/files/sub" "/other" = LinkAction.skipped ↔
      strInside "/other" "http://h/files/sub" = true) ∧
    (strInside "/other" "http://h/files/sub" = false →
      classifyHref "http://h/files/sub" "/other" =
        (if strEnds "/other" "/" = true then LinkAction.folderLink
         else LinkAction.fileLink)) :=
  c9_root_relative_amended "http://h/files/sub" "/other" (by decide) (by decide)
    (by decide)

/-- C10: for a GET request whose URI contains a null byte, `execute` takes
the early empty-return path — before any result section is added, any file
extracted, or the fetch subprocess launched — whatever the do-not-download
configuration decides. -/
theorem c10_null_byte_early_return (noDl : Bool) (m : Option String)
    (uri : String) (hm : m.getD "GET" = "GET") (hnull : uriHasNull uri = true) :
    executeControl noDl m uri = ExecPath.emptyReturn := by
  cases noDl with
  | true => simp [executeControl]
  | false => simp [executeControl, hm, hnull]

/-- Witness for C10 at a concrete URI containing a null byte. -/
theorem c10_null_byte_witness :
    executeControl false (some "GET") "http://a\x00b" = ExecPath.emptyReturn :=
  c10_null_byte_early_return false (some "GET") "http://a\x00b" rfl (by decide)

end UrlDownloader
